import Mathlib

/-!
Shallow embedding of the HydroGuard React Native app (src/app/index.tsx,
both the sensor-enabled variant and the mock-only variant).  The component's
`useState` variables become fields of `AppState`; each handler and each
timer callback becomes a pure state transformer; the `fetch` call's outcome
is passed in explicitly as a `FetchOutcome`; `Math.random()` is passed in
as a rational `q` with `0 ≤ q < 1` and `Math.floor(Math.random() * 100)`
becomes `⌊q * 100⌋`.
-/

namespace HydroGuard

/-- `interface Device` from the source. -/
structure Device where
  id : String
  name : String
  signalStrength : ℤ
deriving DecidableEq

/-- `interface HeartRateData { red?: number; ir?: number }`. -/
structure HeartRateData where
  red : Option ℚ
  ir : Option ℚ
deriving DecidableEq

/-- `interface GyroAccelData { x, y, z: number }`. -/
structure GyroAccelData where
  x : ℚ
  y : ℚ
  z : ℚ
deriving DecidableEq

/-- `interface MPU6050Data`. -/
structure MPU6050Data where
  gyroscope : GyroAccelData
  accelerometer : GyroAccelData
  temperature : ℚ
deriving DecidableEq

/-- `interface SensorData { heart_rate?; mpu6050? }`. -/
structure SensorData where
  heart_rate : Option HeartRateData
  mpu6050 : Option MPU6050Data
deriving DecidableEq

/-- One element of `ChartData.datasets`. -/
structure Dataset where
  data : List ℚ
deriving DecidableEq

/-- `interface ChartData { labels: string[]; datasets: {data: number[]}[] }`. -/
structure ChartData where
  labels : List String
  datasets : List Dataset
deriving DecidableEq

/-- All `useState` variables of the `App` component. -/
structure AppState where
  isConnected : Bool
  waterMovement : ℤ
  isMonitoring : Bool
  alertActive : Bool
  isScanning : Bool
  availableDevices : List Device
  sensorData : Option SensorData
  error : Option String
  heartRateData : ChartData
deriving DecidableEq

/-- The initial values passed to `useState`. -/
def initState : AppState :=
  { isConnected := false
    waterMovement := 0
    isMonitoring := false
    alertActive := false
    isScanning := false
    availableDevices := []
    sensorData := none
    error := none
    heartRateData := { labels := [], datasets := [{ data := [] }] } }

/-- `prevState.datasets[0].data` (the single dataset of the chart). -/
def firstDataset (c : ChartData) : List ℚ :=
  (c.datasets.headD { data := [] }).data

/-- The message of `setError` in the catch branch of `fetchData`. -/
def fetchErrorMessage : String :=
  "Failed to fetch sensor data. Please check your network connection."

/-- The updater passed to `setHeartRateData` inside `fetchData`:
copy labels and data, `shift()` both when labels already hold 10 or more,
then `push` a timestamp label and `data.heart_rate?.red || 0`. -/
def heartRateUpdater (red : Option ℚ) (label : String) (prevState : ChartData) :
    ChartData :=
  let newLabels := prevState.labels
  let newData := firstDataset prevState
  let newLabels2 := if 10 ≤ newLabels.length then newLabels.tail else newLabels
  let newData2 := if 10 ≤ newLabels.length then newData.tail else newData
  { labels := newLabels2 ++ [label]
    datasets := [{ data := newData2 ++ [red.getD 0] }] }

/-- Outcome of `await fetch(...)` followed by `response.ok` and
`await response.json()`: a thrown network error, or a response with its
`ok` flag and its parsed body (`none` = JSON parse failure). -/
inductive FetchOutcome where
  | networkError
  | response (ok : Bool) (json : Option SensorData)
deriving DecidableEq

/-- `fetchData`: on any throw (network error, `!response.ok`, parse
failure) the catch branch runs `setError(...)`; on success it runs
`setSensorData(data)` and the chart updater.  `label` is the
`new Date().toLocaleTimeString()` value of this call. -/
def fetchData (outcome : FetchOutcome) (label : String) (s : AppState) :
    AppState :=
  match outcome with
  | .networkError => { s with error := some fetchErrorMessage }
  | .response ok json =>
      if ok = false then { s with error := some fetchErrorMessage }
      else
        match json with
        | none => { s with error := some fetchErrorMessage }
        | some data =>
            let s1 := { s with sensorData := some data }
            { s1 with
                heartRateData :=
                  heartRateUpdater (data.heart_rate.bind HeartRateData.red)
                    label s1.heartRateData }

/-- `Math.floor(Math.random() * 100)` with the random draw `q ∈ [0,1)`
passed in explicitly. -/
def drawMovement (q : ℚ) : ℤ := ⌊q * 100⌋

/-- One invocation of the `setInterval` callback of the monitoring
`useEffect`.  The interval only exists while `isMonitoring && isConnected`
(the effect's guard), so the callback is a no-op otherwise.  It draws the
new water movement, raises the alert flag when the value exceeds 70, and
then calls `fetchData`. -/
def monitoringTick (q : ℚ) (outcome : FetchOutcome) (label : String)
    (s : AppState) : AppState :=
  if s.isMonitoring && s.isConnected then
    let newMovement := drawMovement q
    let s1 := { s with waterMovement := newMovement }
    let s2 := if 70 < newMovement then { s1 with alertActive := true } else s1
    fetchData outcome label s2
  else s

/-- The `onPress` of the alert dialog's OK button: `setAlertActive(false)`. -/
def acknowledgeAlert (s : AppState) : AppState :=
  { s with alertActive := false }

/-- `disconnectDevice`. -/
def disconnectDevice (s : AppState) : AppState :=
  { s with isMonitoring := false, isConnected := false, alertActive := false }

/-- `toggleMonitoring`: flip the monitoring flag; clear the alert flag when
it was set. -/
def toggleMonitoring (s : AppState) : AppState :=
  { s with
      isMonitoring := !s.isMonitoring
      alertActive := if s.alertActive then false else s.alertActive }

/-- The mock device list of `scanForDevices`. -/
def mockDevices : List Device :=
  [ { id := "001", name := "HydroGuard-Pool", signalStrength := 90 }
  , { id := "002", name := "HydroGuard-Spa", signalStrength := 75 }
  , { id := "003", name := "HydroGuard-Beach", signalStrength := 60 } ]

/-- `scanForDevices` before its 2-second timeout fires:
`setIsScanning(true)`. -/
def scanForDevices (s : AppState) : AppState :=
  { s with isScanning := true }

/-- The body of `scanForDevices`'s `setTimeout` callback: populate the
mock device list and clear the scanning flag. -/
def scanComplete (s : AppState) : AppState :=
  { s with availableDevices := mockDevices, isScanning := false }

/-- `connectToDevice` before its 1.5-second timeout fires:
`setIsScanning(false)`. -/
def connectToDevice (s : AppState) : AppState :=
  { s with isScanning := false }

/-- The body of `connectToDevice`'s `setTimeout` callback:
`setIsConnected(true)`. -/
def connectComplete (s : AppState) : AppState :=
  { s with isConnected := true }

/-- What `renderSensorData` renders. -/
inductive SensorView where
  | errorView (msg : String)
  | loadingView
  | dataView (d : SensorData) (chart : ChartData)
deriving DecidableEq

/-- `renderSensorData`: the error message when `error` is set, the loading
placeholder when `sensorData` is null, else the data sections and chart. -/
def renderSensorData (s : AppState) : SensorView :=
  match s.error with
  | some msg => .errorView msg
  | none =>
      match s.sensorData with
      | none => .loadingView
      | some d => .dataView d s.heartRateData

/-- Every discrete callback that can mutate the component's state:
user taps, timer completions, the monitoring tick, and the initial fetch
triggered by the `isConnected` effect. -/
inductive Event where
  | scanStart
  | scanDone
  | connectStart
  | connectDone
  | disconnect
  | toggle
  | ackAlert
  | tick (q : ℚ) (outcome : FetchOutcome) (label : String)
  | initialFetch (outcome : FetchOutcome) (label : String)

/-- Dispatch one event on the state. -/
def step (s : AppState) (e : Event) : AppState :=
  match e with
  | .scanStart => scanForDevices s
  | .scanDone => scanComplete s
  | .connectStart => connectToDevice s
  | .connectDone => connectComplete s
  | .disconnect => disconnectDevice s
  | .toggle => toggleMonitoring s
  | .ackAlert => acknowledgeAlert s
  | .tick q outcome label => monitoringTick q outcome label s
  | .initialFetch outcome label =>
      if s.isConnected then fetchData outcome label s else s

/-- Run a sequence of events from the initial state. -/
def run (events : List Event) : AppState :=
  events.foldl step initState

end HydroGuard

namespace HydroGuard

/-- `fetchData` never touches the alert flag. -/
lemma fetchData_alertActive (o : FetchOutcome) (label : String) (s : AppState) :
    (fetchData o label s).alertActive = s.alertActive := by
  cases o with
  | networkError => rfl
  | response ok json =>
      cases ok <;> cases json <;> rfl

/-- `fetchData` never touches the water-movement value. -/
lemma fetchData_waterMovement (o : FetchOutcome) (label : String) (s : AppState) :
    (fetchData o label s).waterMovement = s.waterMovement := by
  cases o with
  | networkError => rfl
  | response ok json =>
      cases ok <;> cases json <;> rfl

/-- `fetchData` either leaves the error message alone (success path) or
sets it to the one static failure message (any catch path). -/
lemma fetchData_error (o : FetchOutcome) (label : String) (s : AppState) :
    (fetchData o label s).error = s.error ∨
      (fetchData o label s).error = some fetchErrorMessage := by
  cases o with
  | networkError => exact Or.inr rfl
  | response ok json =>
      cases ok with
      | false => exact Or.inr rfl
      | true =>
          cases json with
          | none => exact Or.inr rfl
          | some d => exact Or.inl rfl

/-- Claim C4: every failing fetch (network error, non-2xx response, or
JSON parse failure) sets the single shared error message and leaves every
other piece of state exactly as it was: the result is the input state with
only the `error` field replaced. -/
theorem fetch_failure_only_sets_error
    (o : FetchOutcome) (label : String) (s : AppState)
    (h : o = .networkError ∨ (∃ json, o = .response false json) ∨
        o = .response true none) :
    fetchData o label s = { s with error := some fetchErrorMessage } := by
  rcases h with h | ⟨json, h⟩ | h <;> subst h
  · rfl
  · cases json <;> rfl
  · rfl

/-- Witness for C4: the network-error outcome on the initial state. -/
theorem fetch_failure_only_sets_error_witness :
    fetchData .networkError "t" initState =
      { initState with error := some fetchErrorMessage } :=
  fetch_failure_only_sets_error .networkError "t" initState (Or.inl rfl)

/-- Claim C7: `disconnectDevice` unconditionally clears the connection
flag, the monitoring flag and the alert flag, from any state. -/
theorem disconnect_clears (s : AppState) :
    (disconnectDevice s).isConnected = false ∧
    (disconnectDevice s).isMonitoring = false ∧
    (disconnectDevice s).alertActive = false :=
  ⟨rfl, rfl, rfl⟩

/-- Counterexample to claim C1 as stated: the alert flag is NOT an iff of
the most recent tick's value.  In the reachable state obtained by scanning,
connecting, starting monitoring and drawing 80 (alert raised, never
acknowledged), a further tick drawing 50 completes with the alert flag
still set although 50 ≤ 70: a below-threshold tick leaves the flag set
rather than clearing it. -/
theorem alert_iff_counterexample :
    ¬ (∀ (s : AppState) (q : ℚ) (o : FetchOutcome) (label : String),
        s.isMonitoring = true → s.isConnected = true →
        ((monitoringTick q o label s).alertActive = true ↔
          70 < drawMovement q)) := by
  intro h
  have hmon : (run [.scanStart, .scanDone, .connectDone, .toggle,
      .tick (4/5) .networkError "t1"]).isMonitoring = true := by
    norm_num [run, step, initState, scanForDevices, scanComplete,
      connectComplete, toggleMonitoring, monitoringTick, drawMovement,
      fetchData]
  have hcon : (run [.scanStart, .scanDone, .connectDone, .toggle,
      .tick (4/5) .networkError "t1"]).isConnected = true := by
    norm_num [run, step, initState, scanForDevices, scanComplete,
      connectComplete, toggleMonitoring, monitoringTick, drawMovement,
      fetchData]
  have halert : (monitoringTick (1/2) .networkError "t2"
      (run [.scanStart, .scanDone, .connectDone, .toggle,
        .tick (4/5) .networkError "t1"])).alertActive = true := by
    norm_num [run, step, initState, scanForDevices, scanComplete,
      connectComplete, toggleMonitoring, monitoringTick, drawMovement,
      fetchData]
  have h70 := (h _ (1/2) .networkError "t2" hmon hcon).mp halert
  norm_num [drawMovement] at h70

/-- Claim C1 (amended): on a tick that executes (monitoring on and
connected), a drawn value strictly above 70 sets the alert flag; a value
of 70 or below leaves the alert flag unchanged (it is not cleared by the
tick itself). -/
theorem tick_alert_behavior
    (s : AppState) (q : ℚ) (o : FetchOutcome) (label : String)
    (hm : s.isMonitoring = true) (hc : s.isConnected = true) :
    (70 < drawMovement q → (monitoringTick q o label s).alertActive = true) ∧
    (drawMovement q ≤ 70 →
      (monitoringTick q o label s).alertActive = s.alertActive) := by
  constructor
  · intro hgt
    simp only [monitoringTick, hm, hc, Bool.and_self, if_pos, if_true,
      hgt, fetchData_alertActive]
  · intro hle
    have hngt : ¬ 70 < drawMovement q := not_lt.mpr hle
    simp only [monitoringTick, hm, hc, Bool.and_self, if_true, hngt,
      if_false, fetchData_alertActive]

/-- Witness for C1 (amended): in a monitoring connected state, a draw of
4/5 (value 80) sets the alert flag. -/
theorem tick_alert_behavior_witness :
    (monitoringTick (4/5) .networkError "t"
      { initState with isMonitoring := true, isConnected := true
      }).alertActive = true :=
  (tick_alert_behavior
    { initState with isMonitoring := true, isConnected := true }
    (4/5) .networkError "t" rfl rfl).1 (by norm_num [drawMovement])

end HydroGuard

namespace HydroGuard

/-- Claim C3: toggling monitoring off while it is on clears the monitoring
flag and the alert flag, and afterwards the interval callback is a no-op
(the monitoring effect's guard fails), so no tick changes the state until
monitoring is started again. -/
theorem stop_monitoring_halts (s : AppState) (hm : s.isMonitoring = true) :
    (toggleMonitoring s).isMonitoring = false ∧
    (toggleMonitoring s).alertActive = false ∧
    ∀ (q : ℚ) (o : FetchOutcome) (label : String),
      monitoringTick q o label (toggleMonitoring s) = toggleMonitoring s := by
  refine ⟨by simp [toggleMonitoring, hm], ?_, ?_⟩
  · cases ha : s.alertActive <;> simp [toggleMonitoring, ha]
  · intro q o label
    simp [monitoringTick, toggleMonitoring, hm]

/-- Witness for C3: stopping from a monitoring state with an active
alert clears both flags and makes a tick a no-op. -/
theorem stop_monitoring_halts_witness :
    (toggleMonitoring { initState with isMonitoring := true, isConnected := true, alertActive := true }).isMonitoring = false ∧
    (toggleMonitoring { initState with isMonitoring := true, isConnected := true, alertActive := true }).alertActive = false ∧
    ∀ (q : ℚ) (o : FetchOutcome) (label : String),
      monitoringTick q o label (toggleMonitoring { initState with isMonitoring := true, isConnected := true, alertActive := true }) =
      toggleMonitoring { initState with isMonitoring := true, isConnected := true, alertActive := true } :=
  stop_monitoring_halts
    { initState with isMonitoring := true, isConnected := true, alertActive := true } rfl

/-- Claim C6: on a tick that executes, the stored water-movement value is
`⌊q * 100⌋` for the uniform draw `q ∈ [0,1)`, hence an integer between 0
and 99 inclusive. -/
theorem tick_movement_in_range
    (s : AppState) (q : ℚ) (o : FetchOutcome) (label : String)
    (hm : s.isMonitoring = true) (hc : s.isConnected = true)
    (h0 : 0 ≤ q) (h1 : q < 1) :
    0 ≤ (monitoringTick q o label s).waterMovement ∧
    (monitoringTick q o label s).waterMovement ≤ 99 := by
  have hw : (monitoringTick q o label s).waterMovement = drawMovement q := by
    simp only [monitoringTick, hm, hc, Bool.and_self, if_true]
    split <;> simp [fetchData_waterMovement]
  rw [hw]
  constructor
  · exact Int.floor_nonneg.mpr (by positivity)
  · have hlt : drawMovement q < 100 := by
      refine Int.floor_lt.mpr ?_
      push_cast
      nlinarith
    omega

/-- Witness for C6: drawing q = 99/100 in a monitoring connected state
stores a value in range. -/
theorem tick_movement_in_range_witness :
    0 ≤ (monitoringTick (99/100) .networkError "t"
      { initState with isMonitoring := true, isConnected := true }).waterMovement ∧
    (monitoringTick (99/100) .networkError "t"
      { initState with isMonitoring := true, isConnected := true }).waterMovement ≤ 99 :=
  tick_movement_in_range
    { initState with isMonitoring := true, isConnected := true }
    (99/100) .networkError "t" rfl rfl (by norm_num) (by norm_num)

/-- Claim C8: starting a scan sets the scanning flag; when the 2-second
timeout fires, the device list is replaced by exactly the 3 mock entries
with ids "001", "002", "003" (each with a nonempty name and a signal
strength between 0 and 100) and the scanning flag is cleared. -/
theorem scan_flow (s : AppState) :
    (scanForDevices s).isScanning = true ∧
    (scanComplete (scanForDevices s)).isScanning = false ∧
    (scanComplete (scanForDevices s)).availableDevices.map Device.id =
      ["001", "002", "003"] ∧
    ∀ d ∈ (scanComplete (scanForDevices s)).availableDevices,
      d.name ≠ "" ∧ 0 ≤ d.signalStrength ∧ d.signalStrength ≤ 100 := by
  refine ⟨rfl, rfl, rfl, ?_⟩
  intro d hd
  simp only [scanComplete, scanForDevices, mockDevices, List.mem_cons,
    List.not_mem_nil, or_false] at hd
  rcases hd with h | h | h <;> subst h <;> refine ⟨?_, by norm_num, by norm_num⟩ <;> simp

/-- Witness for C8: at the initial state the populated list has the three
mock ids and its first entry satisfies the bounds. -/
theorem scan_flow_witness :
    (scanComplete (scanForDevices initState)).availableDevices.map Device.id =
      ["001", "002", "003"] ∧
    (({ id := "001", name := "HydroGuard-Pool", signalStrength := 90 } :
        Device).name ≠ "" ∧
      0 ≤ ({ id := "001", name := "HydroGuard-Pool", signalStrength := 90 } :
        Device).signalStrength ∧
      ({ id := "001", name := "HydroGuard-Pool", signalStrength := 90 } :
        Device).signalStrength ≤ 100) :=
  ⟨(scan_flow initState).2.2.1,
    (scan_flow initState).2.2.2 _ (by simp [scanComplete, mockDevices])⟩

end HydroGuard

namespace HydroGuard

/-- Claim C5: a successful fetch whose body carries `heart_rate.red = 88`
replaces the sensor snapshot wholesale with the body and appends exactly
one chart point with value 88 and the timestamp label, shifting out the
oldest point first when the window already held 10 labels. -/
theorem fetch_success_88_appends
    (s : AppState) (label : String) (d : SensorData)
    (h : d.heart_rate.bind HeartRateData.red = some 88) :
    (fetchData (.response true (some d)) label s).sensorData = some d ∧
    (fetchData (.response true (some d)) label s).heartRateData.labels =
      (if 10 ≤ s.heartRateData.labels.length then s.heartRateData.labels.tail
       else s.heartRateData.labels) ++ [label] ∧
    firstDataset (fetchData (.response true (some d)) label s).heartRateData =
      (if 10 ≤ s.heartRateData.labels.length
       then (firstDataset s.heartRateData).tail
       else firstDataset s.heartRateData) ++ [88] := by
  refine ⟨rfl, ?_, ?_⟩ <;>
    simp [fetchData, heartRateUpdater, firstDataset, h]

/-- Witness for C5: the body with `heart_rate.red = 88` on the initial
(empty-chart) state. -/
theorem fetch_success_88_appends_witness :
    (fetchData (.response true (some ⟨some ⟨some 88, none⟩, none⟩)) "t" initState).sensorData = some ⟨some ⟨some 88, none⟩, none⟩ ∧
    (fetchData (.response true (some ⟨some ⟨some 88, none⟩, none⟩)) "t" initState).heartRateData.labels =
      (if 10 ≤ initState.heartRateData.labels.length then initState.heartRateData.labels.tail
       else initState.heartRateData.labels) ++ ["t"] ∧
    firstDataset (fetchData (.response true (some ⟨some ⟨some 88, none⟩, none⟩)) "t" initState).heartRateData =
      (if 10 ≤ initState.heartRateData.labels.length
       then (firstDataset initState.heartRateData).tail
       else firstDataset initState.heartRateData) ++ [88] :=
  fetch_success_88_appends initState "t" ⟨some ⟨some 88, none⟩, none⟩ rfl

/-- Claim C9: a successful fetch whose body lacks `heart_rate.red` (field
or object absent) or carries the falsy value 0 still appends exactly one
chart point, with value 0 (`data.heart_rate?.red || 0`). -/
theorem fetch_missing_red_appends_zero
    (s : AppState) (label : String) (d : SensorData)
    (h : d.heart_rate.bind HeartRateData.red = none ∨
        d.heart_rate.bind HeartRateData.red = some 0) :
    (fetchData (.response true (some d)) label s).heartRateData.labels =
      (if 10 ≤ s.heartRateData.labels.length then s.heartRateData.labels.tail
       else s.heartRateData.labels) ++ [label] ∧
    firstDataset (fetchData (.response true (some d)) label s).heartRateData =
      (if 10 ≤ s.heartRateData.labels.length
       then (firstDataset s.heartRateData).tail
       else firstDataset s.heartRateData) ++ [0] := by
  rcases h with h | h <;>
    constructor <;>
      simp [fetchData, heartRateUpdater, firstDataset, h]

/-- Witness for C9: a body with no `heart_rate` object at all appends a 0
point to the empty chart. -/
theorem fetch_missing_red_appends_zero_witness :
    (fetchData (.response true (some ⟨none, none⟩)) "t" initState).heartRateData.labels =
      (if 10 ≤ initState.heartRateData.labels.length then initState.heartRateData.labels.tail
       else initState.heartRateData.labels) ++ ["t"] ∧
    firstDataset (fetchData (.response true (some ⟨none, none⟩)) "t" initState).heartRateData =
      (if 10 ≤ initState.heartRateData.labels.length
       then (firstDataset initState.heartRateData).tail
       else firstDataset initState.heartRateData) ++ [0] :=
  fetch_missing_red_appends_zero initState "t" ⟨none, none⟩ (Or.inl rfl)

end HydroGuard

namespace HydroGuard

/-- Well-formedness of the chart: at most 10 labels, and as many data
points as labels. -/
def ChartInv (c : ChartData) : Prop :=
  c.labels.length ≤ 10 ∧ c.labels.length = (firstDataset c).length

/-- The `setHeartRateData` updater preserves the chart invariant. -/
lemma heartRateUpdater_chartInv (red : Option ℚ) (label : String)
    (c : ChartData) (h : ChartInv c) :
    ChartInv (heartRateUpdater red label c) := by
  obtain ⟨h1, h2⟩ := h
  unfold firstDataset at h2
  by_cases hc : 10 ≤ c.labels.length <;>
    simp only [ChartInv, heartRateUpdater, firstDataset, hc, if_true,
      if_false, List.headD_cons, List.length_append, List.length_tail,
      List.length_cons, List.length_nil] <;>
    omega

/-- `fetchData` preserves the chart invariant. -/
lemma fetchData_chartInv (o : FetchOutcome) (label : String) (s : AppState)
    (h : ChartInv s.heartRateData) :
    ChartInv (fetchData o label s).heartRateData := by
  cases o with
  | networkError => exact h
  | response ok json =>
      cases ok with
      | false => exact h
      | true =>
          cases json with
          | none => exact h
          | some d => exact heartRateUpdater_chartInv _ label _ h

/-- Every event preserves the chart invariant. -/
lemma step_chartInv (s : AppState) (e : Event)
    (h : ChartInv s.heartRateData) : ChartInv (step s e).heartRateData := by
  cases e with
  | scanStart => exact h
  | scanDone => exact h
  | connectStart => exact h
  | connectDone => exact h
  | disconnect => exact h
  | toggle => exact h
  | ackAlert => exact h
  | tick q o label =>
      simp only [step, monitoringTick]
      split
      · apply fetchData_chartInv
        split <;> exact h
      · exact h
  | initialFetch o label =>
      simp only [step]
      split
      · exact fetchData_chartInv o label s h
      · exact h

/-- The chart invariant holds in every reachable state. -/
lemma run_chartInv (events : List Event) :
    ChartInv (run events).heartRateData := by
  have hfold : ∀ (l : List Event) (s : AppState), ChartInv s.heartRateData →
      ChartInv (l.foldl step s).heartRateData := by
    intro l
    induction l with
    | nil => intro s h; exact h
    | cons e l ih => intro s h; exact ih _ (step_chartInv s e h)
  exact hfold events initState ⟨by simp [initState], rfl⟩

/-- Claim C2: in every state reachable by any event sequence the chart
holds at most 10 labels and at most 10 data points; and whenever the
updater runs on a full (10-entry) chart it removes exactly the oldest
label and the oldest data point before appending the new pair, keeping
the order of the rest. -/
theorem chart_window_fifo :
    (∀ events : List Event,
        (run events).heartRateData.labels.length ≤ 10 ∧
        (firstDataset (run events).heartRateData).length ≤ 10) ∧
    (∀ (c : ChartData) (red : Option ℚ) (label : String),
        c.labels.length = 10 →
        (heartRateUpdater red label c).labels = c.labels.tail ++ [label] ∧
        firstDataset (heartRateUpdater red label c) =
          (firstDataset c).tail ++ [red.getD 0]) := by
  constructor
  · intro events
    obtain ⟨h1, h2⟩ := run_chartInv events
    exact ⟨h1, by omega⟩
  · intro c red label h
    constructor <;> simp [heartRateUpdater, firstDataset, h]

/-- Witness for C2: the empty run satisfies the bound, and the updater on
a concrete full chart shifts out the oldest entry. -/
theorem chart_window_fifo_witness :
    ((run []).heartRateData.labels.length ≤ 10 ∧
      (firstDataset (run []).heartRateData).length ≤ 10) ∧
    ((heartRateUpdater (some 88) "t" { labels := ["a", "b", "c", "d", "e", "f", "g", "h", "i", "j"], datasets := [{ data := [1, 2, 3, 4, 5, 6, 7, 8, 9, 10] }] }).labels =
        ({ labels := ["a", "b", "c", "d", "e", "f", "g", "h", "i", "j"], datasets := [{ data := [1, 2, 3, 4, 5, 6, 7, 8, 9, 10] }] } : ChartData).labels.tail ++ ["t"] ∧
      firstDataset (heartRateUpdater (some 88) "t" { labels := ["a", "b", "c", "d", "e", "f", "g", "h", "i", "j"], datasets := [{ data := [1, 2, 3, 4, 5, 6, 7, 8, 9, 10] }] }) =
        (firstDataset { labels := ["a", "b", "c", "d", "e", "f", "g", "h", "i", "j"], datasets := [{ data := [1, 2, 3, 4, 5, 6, 7, 8, 9, 10] }] }).tail ++ [(some (88 : ℚ)).getD 0]) :=
  ⟨chart_window_fifo.1 [],
    chart_window_fifo.2
      { labels := ["a", "b", "c", "d", "e", "f", "g", "h", "i", "j"], datasets := [{ data := [1, 2, 3, 4, 5, 6, 7, 8, 9, 10] }] }
      (some 88) "t" rfl⟩

/-- The monitoring tick leaves the error message alone or sets it to the
single failure message. -/
lemma monitoringTick_error (q : ℚ) (o : FetchOutcome) (label : String)
    (s : AppState) :
    (monitoringTick q o label s).error = s.error ∨
    (monitoringTick q o label s).error = some fetchErrorMessage := by
  unfold monitoringTick
  split
  · rcases fetchData_error o label _ with h | h
    · left
      rw [h]
      split <;> rfl
    · right
      exact h
  · left
    rfl

/-- Every event leaves the error message alone or sets it to the single
failure message; nothing ever clears it. -/
lemma step_error (s : AppState) (e : Event) :
    (step s e).error = s.error ∨
    (step s e).error = some fetchErrorMessage := by
  cases e with
  | scanStart => exact Or.inl rfl
  | scanDone => exact Or.inl rfl
  | connectStart => exact Or.inl rfl
  | connectDone => exact Or.inl rfl
  | disconnect => exact Or.inl rfl
  | toggle => exact Or.inl rfl
  | ackAlert => exact Or.inl rfl
  | tick q o label => exact monitoringTick_error q o label s
  | initialFetch o label =>
      simp only [step]
      split
      · exact fetchData_error o label s
      · exact Or.inl rfl

/-- Claim C10: once the error message is set, no event clears it — every
event leaves it as is or rewrites it to the one static failure message —
and `renderSensorData` shows the error message instead of sensor data
whenever it is set. -/
theorem error_sticky_and_displayed :
    (∀ (s : AppState) (e : Event) (m : String), s.error = some m →
        (step s e).error = some m ∨
        (step s e).error = some fetchErrorMessage) ∧
    (∀ (s : AppState) (m : String), s.error = some m →
        renderSensorData s = SensorView.errorView m) := by
  constructor
  · intro s e m hm
    rcases step_error s e with h | h
    · left
      rw [h, hm]
    · right
      exact h
  · intro s m hm
    simp [renderSensorData, hm]

/-- Witness for C10: with the failure message set, a toggle leaves it set
and the sensor area renders the error view. -/
theorem error_sticky_and_displayed_witness :
    ((step { initState with error := some fetchErrorMessage } .toggle).error = some fetchErrorMessage ∨
      (step { initState with error := some fetchErrorMessage } .toggle).error = some fetchErrorMessage) ∧
    renderSensorData { initState with error := some fetchErrorMessage } =
      SensorView.errorView fetchErrorMessage :=
  ⟨error_sticky_and_displayed.1 { initState with error := some fetchErrorMessage } .toggle fetchErrorMessage rfl,
    error_sticky_and_displayed.2 { initState with error := some fetchErrorMessage } fetchErrorMessage rfl⟩

end HydroGuard
